import Mathlib

/-!
Shallow embedding of the computational core of the YouTube-analytics Flask
backend (src/backend/app.py): number/text helpers, the keyword sentiment
classifier, the ISO-8601 duration handling, engagement metrics, the channel
resolver, the upload-frequency heuristic and the trending-analytics builder.
Machine text is modelled as Lean strings / character lists, upstream JSON
responses as explicit `Option`-valued inputs, and HTTP outcomes as
`Except (status × message)` values.
-/

set_option maxRecDepth 4000

/-- Substring containment on character lists: Python's `w in t`.
The empty needle is contained in every text. -/
def containsSub (w : List Char) : List Char → Bool
  | [] => w.isEmpty
  | c :: rest => w.isPrefixOf (c :: rest) || containsSub w rest

/-- Python `s.startswith(pre)`. -/
def strStartsWith (s pre : String) : Bool :=
  pre.data.isPrefixOf s.data

/-- Python `s.lower()` restricted to the ASCII range used by the lexicon. -/
def strLower (s : String) : List Char :=
  s.data.map Char.toLower

/-- Python `s.upper()` (ASCII), used for region codes. -/
def strUpper (s : String) : String :=
  String.mk (s.data.map Char.toUpper)

/-- Fixed positive lexicon from `analyze_sentiment` in src/backend/app.py. -/
def positive_words : List String :=
  ["good", "great", "awesome", "amazing", "love", "excellent", "perfect",
   "best", "wonderful", "fantastic", "nice", "beautiful", "cool", "thanks",
   "thank"]

/-- Fixed negative lexicon from `analyze_sentiment` in src/backend/app.py. -/
def negative_words : List String :=
  ["bad", "hate", "terrible", "awful", "worst", "stupid", "boring", "sucks",
   "disappointing", "useless", "garbage", "trash", "horrible"]

/-- Embedding of `analyze_sentiment` (src/backend/app.py lines 96-110):
lower-case the text, count the lexicon terms contained as substrings
(`sum(1 for word in words if word in text_lower)`), majority vote. -/
def analyze_sentiment (text : String) : String :=
  let text_lower := strLower text
  let positive_count := (positive_words.filter (fun w => containsSub w.data text_lower)).length
  let negative_count := (negative_words.filter (fun w => containsSub w.data text_lower)).length
  if negative_count < positive_count then "positive"
  else if positive_count < negative_count then "negative"
  else "neutral"

/-- Python `int(x)` on the rational `n / d`: truncation toward zero. -/
def truncDiv (n : Int) (d : Nat) : Int :=
  if 0 ≤ n then ((n.toNat / d : Nat) : Int) else -((n.natAbs / d : Nat) : Int)

/-- Unreduced fraction arithmetic (numerator, positive denominator):
addition. -/
def addFrac (a b : Nat × Nat) : Nat × Nat :=
  (a.1 * b.2 + b.1 * a.2, a.2 * b.2)

/-- Unreduced fraction arithmetic: scaling by a natural number. -/
def scaleFrac (k : Nat) (a : Nat × Nat) : Nat × Nat :=
  (k * a.1, a.2)

/-- Longest leading run of ASCII digits of a character list, with the rest. -/
def takeDigits : List Char → (List Char × List Char)
  | [] => ([], [])
  | c :: cs =>
    if '0' ≤ c ∧ c ≤ '9' then
      let p := takeDigits cs
      (c :: p.1, p.2)
    else ([], c :: cs)

/-- Numeric value of a digit run. -/
def digitsVal (ds : List Char) : Nat :=
  ds.foldl (fun n c => n * 10 + (c.toNat - 48)) 0

/-- Parse a decimal number `digits[(.|,)digits]` as an unreduced fraction
(value `num / den`, `den` a power of 10), returning the unconsumed
remainder. -/
def parseNumber (cs : List Char) : Option ((Nat × Nat) × List Char) :=
  let p := takeDigits cs
  if p.1.isEmpty then none
  else
    match p.2 with
    | c :: rest2 =>
      if c = '.' ∨ c = ',' then
        let f := takeDigits rest2
        if f.1.isEmpty then none
        else some ((digitsVal p.1 * 10 ^ f.1.length + digitsVal f.1, 10 ^ f.1.length), f.2)
      else some ((digitsVal p.1, 1), c :: rest2)
    | [] => some ((digitsVal p.1, 1), [])

/-- Try to read one duration component `<number><unit>`; on unit mismatch the
input is left untouched. -/
def tryComp (u : Char) (cs : List Char) : Option (Nat × Nat) × List Char :=
  match parseNumber cs with
  | some (q, rest) =>
    match rest with
    | c :: rest2 => if c = u then (some q, rest2) else (none, cs)
    | [] => (none, cs)
  | none => (none, cs)

/-- Modelled from the spec: the external `isodate` library's ISO-8601
duration parsing (the library is not part of src/). A duration is an
optional sign, then `P`, then either a week component or day/time
components `[nD][T[nH][nM][nS]]` with at least one component present; the
result is the total number of seconds, an exact signed fraction given as
numerator and positive denominator. Durations with year or month
components have no fixed number of seconds and are outside the modelled
domain (the application maps them to 0 as well). -/
def parseIsoDuration (s : List Char) : Option (Int × Nat) :=
  let sgn : Int × List Char :=
    match s with
    | '-' :: r => (-1, r)
    | '+' :: r => (1, r)
    | _ => (1, s)
  match sgn.2 with
  | 'P' :: r =>
    let w := tryComp 'W' r
    match w.1 with
    | some wk =>
      if w.2 = [] then
        let v := scaleFrac 604800 wk
        some (sgn.1 * (v.1 : Int), v.2)
      else none
    | none =>
      let d := tryComp 'D' w.2
      match d.2 with
      | 'T' :: rt =>
        let h := tryComp 'H' rt
        let m := tryComp 'M' h.2
        let sec := tryComp 'S' m.2
        if sec.2 = [] ∧ (h.1.isSome ∨ m.1.isSome ∨ sec.1.isSome) then
          let v := addFrac (addFrac (addFrac
            (scaleFrac 86400 (d.1.getD (0, 1)))
            (scaleFrac 3600 (h.1.getD (0, 1))))
            (scaleFrac 60 (m.1.getD (0, 1))))
            (sec.1.getD (0, 1))
          some (sgn.1 * (v.1 : Int), v.2)
        else none
      | [] =>
        match d.1 with
        | some dd =>
          let v := scaleFrac 86400 dd
          some (sgn.1 * (v.1 : Int), v.2)
        | none => none
      | _ => none
  | _ => none

/-- Embedding of `parse_duration` (src/backend/app.py lines 74-79):
`int(isodate.parse_duration(duration).total_seconds())` guarded by a bare
`except` returning 0. -/
def parse_duration (s : String) : Int :=
  match parseIsoDuration s.data with
  | some nd => truncDiv nd.1 nd.2
  | none => 0

/-- Embedding of the engagement-rate computation (src/backend/app.py
line 385): `((likes + comments) / views * 100) if views > 0 else 0`. -/
def engagement_rate (views likes comments : Nat) : Rat :=
  if 0 < views then ((likes : Rat) + (comments : Rat)) / (views : Rat) * 100 else 0

/-- Embedding of the upload-frequency computation (src/backend/app.py
lines 410-415). The input is the list of `publishedAt` instants of the
fetched channel videos in response order (`None` when the search call
returned no data), each instant abstracted to seconds since the epoch; the
Python `timedelta.days` is floor division of the signed difference by
86400. -/
def upload_frequency (channel_videos : Option (List Int)) : Rat :=
  match channel_videos with
  | some items =>
    if 1 < items.length then
      let latest := items.headD 0
      let oldest := items.getLastD 0
      let days_diff := Int.fdiv (latest - oldest) 86400
      if 0 < days_diff then (items.length : Rat) / ((max days_diff 1 : Int) : Rat) else 0
    else 0
  | none => 0

/-- Parameters of the single channel search issued by
`get_channel_id_from_name` (src/backend/app.py lines 240-256); `part` is
always `snippet`. -/
structure ChannelSearchRequest where
  q : String
  type : String
  maxResults : Nat
deriving Repr, DecidableEq

/-- One item of an upstream channel-search response (only the field the
code reads). -/
structure SearchHit where
  channelId : String
deriving Repr, DecidableEq

/-- The request constructed by `get_channel_id_from_name`. -/
def channelSearchRequest (name : String) : ChannelSearchRequest :=
  { q := name, type := "channel", maxResults := 1 }

/-- Embedding of `get_channel_id_from_name` (src/backend/app.py lines
240-256): issue one single-result channel search; on any items take the
first hit's `channelId`, otherwise `None`. The upstream response to that
one request is passed in as `searchResult` (`none` models a failed call);
the first component is the trace of search requests issued. -/
def get_channel_id_from_name (name : String) (searchResult : Option (List SearchHit)) :
    List ChannelSearchRequest × Option String :=
  ([channelSearchRequest name],
    match searchResult with
    | some (h :: _) => some h.channelId
    | _ => none)

/-- Embedding of the input-format dispatch of `get_channel_analytics`
(src/backend/app.py lines 262-270): `@`-inputs search on the rest,
non-`UC`-prefixed inputs of length ≠ 24 search on the whole input, all
other inputs pass through as the channel id. -/
def resolveChannelInput (channel_input : String) (searchResult : Option (List SearchHit)) :
    List ChannelSearchRequest × Option String :=
  if strStartsWith channel_input ("@") then
    get_channel_id_from_name (String.mk (channel_input.data.drop 1)) searchResult
  else if !strStartsWith channel_input ("UC") && channel_input.length != 24 then
    get_channel_id_from_name channel_input searchResult
  else ([], some channel_input)

/-- The 404 body produced when resolution fails:
`f'Channel "{channel_input}" not found'`. -/
def channelNotFoundMsg (channel_input : String) : String :=
  "Channel \"" ++ channel_input ++ "\" not found"

/-- Embedding of the resolution phase of the `/api/channel/<channel_input>`
endpoint (src/backend/app.py lines 262-273): a falsy resolved id (`None`,
or an empty string under Python truthiness) is answered with a 404 error
body; otherwise the request proceeds with the resolved id. -/
def channelResolutionOutcome (channel_input : String) (searchResult : Option (List SearchHit)) :
    List ChannelSearchRequest × Except (Nat × String) String :=
  let r := resolveChannelInput channel_input searchResult
  match r.2 with
  | some s =>
    if s.data.isEmpty then (r.1, .error (404, channelNotFoundMsg channel_input))
    else (r.1, .ok s)
  | none => (r.1, .error (404, channelNotFoundMsg channel_input))

/-- Python `round(q, 2)`: round `100 q` to the nearest integer, halves to
even (floats are modelled as exact rationals). -/
def roundHalfEven (q : Rat) : Int :=
  let f := q.floor
  let r := q - (f : Rat)
  if r < 1 / 2 then f
  else if 1 / 2 < r then f + 1
  else if f % 2 = 0 then f else f + 1

/-- Two-decimal rounding used throughout the analytics code. -/
def round2 (q : Rat) : Rat :=
  ((roundHalfEven (q * 100) : Int) : Rat) / 100

/-- View velocity of one trending entry (src/backend/app.py lines 494-507
and 519-532): `round(views / hours_since_publish, 2) if
hours_since_publish > 0 else 0`, with `hours_since_publish` the elapsed
seconds divided by 3600. -/
def viewVelocity (now published : Int) (views : Nat) : Rat :=
  let hours_since_publish : Rat := ((now - published : Int) : Rat) / 3600
  if 0 < hours_since_publish then round2 ((views : Rat) / hours_since_publish) else 0

/-- One item of the primary `mostPopular` listing: the numeric fields the
trending code reads (title/thumbnail pass-through fields are omitted),
with `publishedAt` abstracted to an instant in seconds and the ISO
duration kept as its raw string. -/
structure RawVideo where
  vid : String
  viewCount : Nat
  likeCount : Nat
  commentCount : Nat
  published : Int
  duration : String
deriving Repr, DecidableEq

/-- One item of the fallback search response (id and publish instant). -/
structure FallbackSearchItem where
  vid : String
  published : Int
deriving Repr, DecidableEq

/-- One item of the fallback statistics batch-fetch. -/
structure FallbackDetail where
  viewCount : Nat
  likeCount : Nat
  commentCount : Nat
  duration : String
deriving Repr, DecidableEq

/-- One entry of the `trendingVideos` output (numeric fields). -/
structure TrendingVideo where
  vid : String
  viewCount : Nat
  likeCount : Nat
  commentCount : Nat
  viewVelocity : Rat
  duration : Int
deriving Repr, DecidableEq

/-- Build a trending entry from a primary-listing item
(src/backend/app.py lines 512-534). -/
def mkEntry (now : Int) (r : RawVideo) : TrendingVideo :=
  { vid := r.vid, viewCount := r.viewCount, likeCount := r.likeCount,
    commentCount := r.commentCount,
    viewVelocity := viewVelocity now r.published r.viewCount,
    duration := parse_duration r.duration }

/-- Build a trending entry from a fallback search item paired with its
batch-fetched details (src/backend/app.py lines 489-509); the velocity
uses the search item's publish instant. -/
def mkFallbackEntry (now : Int) (s : FallbackSearchItem) (d : FallbackDetail) : TrendingVideo :=
  { vid := s.vid, viewCount := d.viewCount, likeCount := d.likeCount,
    commentCount := d.commentCount,
    viewVelocity := viewVelocity now s.published d.viewCount,
    duration := parse_duration d.duration }

/-- Stable insertion for a descending sort: place `x` before the first
element whose key is at most `key x`. -/
def insertDescBy {α : Type} (key : α → Rat) (x : α) : List α → List α
  | [] => [x]
  | y :: ys => if key y ≤ key x then x :: y :: ys else y :: insertDescBy key x ys

/-- Stable descending insertion sort; agrees with Python's stable
`list.sort(key=..., reverse=True)`. -/
def sortDescBy {α : Type} (key : α → Rat) : List α → List α
  | [] => []
  | x :: xs => insertDescBy key x (sortDescBy key xs)

/-- Embedding of `trending_videos.sort(key=lambda x: x['viewVelocity'],
reverse=True)` (src/backend/app.py line 537). -/
def rankVideos (l : List TrendingVideo) : List TrendingVideo :=
  sortDescBy (fun v => v.viewVelocity) l

/-- Duration category of a video (src/backend/app.py lines 542-548). -/
def durationCategory (d : Int) : String :=
  if d < 300 then "Short" else if d < 1200 then "Medium" else "Long"

/-- Per-video engagement rate used in the trending aggregations
(src/backend/app.py lines 554 and 563):
`(likes + comments) / max(views, 1) * 100`. -/
def trendEngagement (v : TrendingVideo) : Rat :=
  ((v.likeCount : Rat) + (v.commentCount : Rat)) / ((max v.viewCount 1 : Nat) : Rat) * 100

/-- Accumulator of the `categories` dict for one duration category. -/
structure CatAcc where
  count : Nat
  totalViews : Nat
  engSum : Rat
deriving Repr, DecidableEq

/-- One step of the category loop (src/backend/app.py lines 550-554):
update the existing key in place or append a fresh one, preserving
first-encounter key order as a Python dict does. -/
def bumpCat (cat : String) (views : Nat) (eng : Rat) :
    List (String × CatAcc) → List (String × CatAcc)
  | [] => [(cat, ⟨1, views, eng⟩)]
  | (c, a) :: rest =>
    if c = cat then (c, ⟨a.count + 1, a.totalViews + views, a.engSum + eng⟩) :: rest
    else (c, a) :: bumpCat cat views eng rest

/-- The `categories` dict after the loop over all ranked videos
(src/backend/app.py lines 540-554). -/
def buildCategories (l : List TrendingVideo) : List (String × CatAcc) :=
  l.foldl (fun acc v => bumpCat (durationCategory v.duration) v.viewCount (trendEngagement v) acc) []

/-- One entry of the `categoryBreakdown` output. -/
structure CatEntry where
  category : String
  count : Nat
  avgViews : Nat
  avgEngagement : Rat
deriving Repr, DecidableEq

/-- The `categoryBreakdown` list (src/backend/app.py lines 556-558 and
581-584): per category, count, integer-divided average views, and the
engagement sum divided by the count, rounded to two decimals. -/
def categoryBreakdown (l : List TrendingVideo) : List CatEntry :=
  (buildCategories l).map fun p =>
    { category := p.1, count := p.2.count, avgViews := p.2.totalViews / p.2.count,
      avgEngagement := round2 (p.2.engSum / (p.2.count : Rat)) }

/-- The `engagementDistribution` histogram (src/backend/app.py lines
560-569): the fixed bands below 2 percent, 2 to 5 percent, and 5 percent
or more. -/
def engagementDistribution (l : List TrendingVideo) : List (String × Nat) :=
  [("Low (0-2%)", l.countP fun v => decide (trendEngagement v < 2)),
   ("Medium (2-5%)", l.countP fun v => decide (¬ trendEngagement v < 2 ∧ trendEngagement v < 5)),
   ("High (5%+)", l.countP fun v => decide (¬ trendEngagement v < 2 ∧ ¬ trendEngagement v < 5))]

/-- The trending response body (src/backend/app.py lines 571-589); the
`summary` object's fields are inlined as `totalVideos`, `totalViews`,
`averageViews`, `topPerformer` and `avgEngagement`. -/
structure TrendingBody where
  trendingVideos : List TrendingVideo
  region : String
  totalVideos : Nat
  totalViews : Nat
  averageViews : Nat
  topPerformer : Option TrendingVideo
  avgEngagement : Rat
  categoryBreakdown : List CatEntry
  engagementDistribution : List (String × Nat)
deriving Repr

/-- Assemble the trending response body from the velocity-ranked list of
all fetched videos (src/backend/app.py lines 571-589); only
`trendingVideos` is capped, to the first 30 ranked entries. -/
def buildTrendingResult (region : String) (ranked : List TrendingVideo) : TrendingBody :=
  { trendingVideos := ranked.take 30,
    region := region,
    totalVideos := ranked.length,
    totalViews := (ranked.map (fun v => v.viewCount)).sum,
    averageViews := if ranked.isEmpty then 0
      else (ranked.map (fun v => v.viewCount)).sum / ranked.length,
    topPerformer := ranked.head?,
    avgEngagement := if ranked.isEmpty then 0
      else (ranked.map trendEngagement).sum / (ranked.length : Rat),
    categoryBreakdown := categoryBreakdown ranked,
    engagementDistribution := engagementDistribution ranked }

/-- Parameters of the fallback search request (src/backend/app.py lines
465-473); `part` is `snippet` and `type` is `video`. -/
structure TrendingSearchParams where
  order : String
  publishedAfter : Int
  maxResults : Nat
  regionCode : String
deriving Repr, DecidableEq

/-- The fallback search request as constructed by the code:
ordered by `viewCount`, restricted to videos published after
`now - timedelta(days=1)` (one day of 86400 seconds), 50 results,
upper-cased region. -/
def trendingSearchParams (now : Int) (region_code : String) : TrendingSearchParams :=
  { order := "viewCount", publishedAfter := now - 86400, maxResults := 50,
    regionCode := strUpper region_code }

/-- Trace of the upstream requests issued by the trending endpoint. -/
inductive TrendingRequest where
  | mostPopular (regionCode : String) (maxResults : Nat)
  | searchRecent (params : TrendingSearchParams)
  | videoDetails (ids : List String)
deriving Repr, DecidableEq

/-- The 404 body when both tiers yield nothing. -/
def trendingUnavailableMsg : String :=
  "No trending data available. This might be due to API quotas or restrictions."

/-- The 500 body when the fallback batch-fetch fails. -/
def videoDetailsFailedMsg : String :=
  "Failed to fetch video details"

/-- Embedding of `get_trending_analysis` (src/backend/app.py lines
447-591). The three upstream responses are explicit inputs: the primary
`mostPopular` listing, the fallback search, and the fallback statistics
batch (each `none` for a failed call, and an empty item list is falsy as
in Python). The first component is the trace of issued requests, the
second the HTTP outcome. In the fallback tier search items are combined
index-wise with the details, dropping search items beyond the details
list (`if i < len(video_details['items'])`). -/
def get_trending_analysis (now : Int) (region_code : String)
    (primary : Option (List RawVideo))
    (fallbackSearch : Option (List FallbackSearchItem))
    (fallbackDetails : Option (List FallbackDetail)) :
    List TrendingRequest × Except (Nat × String) TrendingBody :=
  let primReq := TrendingRequest.mostPopular (strUpper region_code) 50
  match primary with
  | some (it :: its) =>
    let trending_videos := (it :: its).map (mkEntry now)
    ([primReq], .ok (buildTrendingResult (strUpper region_code) (rankVideos trending_videos)))
  | _ =>
    let sReq := TrendingRequest.searchRecent (trendingSearchParams now region_code)
    match fallbackSearch with
    | some (it :: its) =>
      let dReq := TrendingRequest.videoDetails ((it :: its).map (fun i => i.vid))
      match fallbackDetails with
      | none => ([primReq, sReq, dReq], .error (500, videoDetailsFailedMsg))
      | some ds =>
        let trending_videos := ((it :: its).zip ds).map (fun p => mkFallbackEntry now p.1 p.2)
        ([primReq, sReq, dReq],
          .ok (buildTrendingResult (strUpper region_code) (rankVideos trending_videos)))
    | _ => ([primReq, sReq], .error (404, trendingUnavailableMsg))

theorem insertDescBy_perm {α : Type} (key : α → Rat) (x : α) (l : List α) :
    (insertDescBy key x l).Perm (x :: l) := by
  induction l with
  | nil => simp [insertDescBy]
  | cons y ys ih =>
    by_cases h : key y ≤ key x
    · simp [insertDescBy, h]
    · simp only [insertDescBy, if_neg h]
      exact (ih.cons y).trans (List.Perm.swap x y ys)

theorem sortDescBy_perm {α : Type} (key : α → Rat) (l : List α) :
    (sortDescBy key l).Perm l := by
  induction l with
  | nil => simp [sortDescBy]
  | cons x xs ih =>
    exact (insertDescBy_perm key x (sortDescBy key xs)).trans (ih.cons x)

theorem insertDescBy_pairwise {α : Type} (key : α → Rat) (x : α) (l : List α)
    (h : l.Pairwise (fun a b => key b ≤ key a)) :
    (insertDescBy key x l).Pairwise (fun a b => key b ≤ key a) := by
  induction l with
  | nil => simp [insertDescBy]
  | cons y ys ih =>
    rcases List.pairwise_cons.mp h with ⟨hy, hys⟩
    by_cases hle : key y ≤ key x
    · simp only [insertDescBy, if_pos hle]
      refine List.Pairwise.cons ?_ h
      intro z hz
      rcases List.mem_cons.mp hz with rfl | hz2
      · exact hle
      · exact (hy z hz2).trans hle
    · simp only [insertDescBy, if_neg hle]
      refine List.Pairwise.cons ?_ (ih hys)
      intro z hz
      have hz' := (insertDescBy_perm key x ys).mem_iff.mp hz
      rcases List.mem_cons.mp hz' with rfl | hz2
      · exact le_of_lt (not_le.mp hle)
      · exact hy z hz2

theorem sortDescBy_pairwise {α : Type} (key : α → Rat) (l : List α) :
    (sortDescBy key l).Pairwise (fun a b => key b ≤ key a) := by
  induction l with
  | nil => simp [sortDescBy]
  | cons x xs ih => exact insertDescBy_pairwise key x _ ih

theorem insertDescBy_filter {α : Type} (key : α → Rat) (x : α) (l : List α) (v : Rat) :
    (insertDescBy key x l).filter (fun a => decide (key a = v)) =
    (x :: l).filter (fun a => decide (key a = v)) := by
  induction l with
  | nil => simp [insertDescBy]
  | cons y ys ih =>
    by_cases hle : key y ≤ key x
    · simp [insertDescBy, hle]
    · have hxy : key x < key y := not_le.mp hle
      simp only [insertDescBy, if_neg hle]
      by_cases hx : key x = v
      · have hy : ¬ (key y = v) := by
          rw [← hx]
          exact ne_of_gt hxy
        simp only [List.filter_cons, ih]
        simp [hx, hy]
      · simp only [List.filter_cons, ih]
        simp [hx]

theorem sortDescBy_filter {α : Type} (key : α → Rat) (l : List α) (v : Rat) :
    (sortDescBy key l).filter (fun a => decide (key a = v)) =
    l.filter (fun a => decide (key a = v)) := by
  induction l with
  | nil => simp [sortDescBy]
  | cons x xs ih =>
    calc (insertDescBy key x (sortDescBy key xs)).filter (fun a => decide (key a = v))
        = (x :: sortDescBy key xs).filter (fun a => decide (key a = v)) :=
          insertDescBy_filter key x _ v
      _ = (x :: xs).filter (fun a => decide (key a = v)) := by
          simp only [List.filter_cons, ih]

theorem bumpCat_count_sum (cat : String) (vw : Nat) (e : Rat) (acc : List (String × CatAcc)) :
    ((bumpCat cat vw e acc).map (fun p => p.2.count)).sum =
    ((acc.map (fun p => p.2.count)).sum) + 1 := by
  induction acc with
  | nil => simp [bumpCat]
  | cons p rest ih =>
    rcases p with ⟨c, a⟩
    by_cases hc : c = cat
    · simp [bumpCat, hc]
      omega
    · simp [bumpCat, hc, ih]
      omega

theorem buildCategories_foldl_count_sum (l : List TrendingVideo) :
    ∀ acc : List (String × CatAcc),
      (((l.foldl (fun acc v =>
          bumpCat (durationCategory v.duration) v.viewCount (trendEngagement v) acc) acc)).map
        (fun p => p.2.count)).sum =
      ((acc.map (fun p => p.2.count)).sum) + l.length := by
  induction l with
  | nil => intro acc; simp
  | cons x xs ih =>
    intro acc
    simp only [List.foldl_cons, ih, bumpCat_count_sum, List.length_cons]
    omega

theorem categoryBreakdown_count_sum (l : List TrendingVideo) :
    ((categoryBreakdown l).map (fun e => e.count)).sum = l.length := by
  have h := buildCategories_foldl_count_sum l []
  simp only [List.map_nil, List.sum_nil, Nat.zero_add] at h
  simp [categoryBreakdown, List.map_map, Function.comp, buildCategories]
  exact h

theorem engagementDistribution_count_sum (l : List TrendingVideo) :
    ((engagementDistribution l).map Prod.snd).sum = l.length := by
  simp only [engagementDistribution, List.map_cons, List.map_nil, List.sum_cons,
    List.sum_nil]
  induction l with
  | nil => simp
  | cons x xs ih =>
    by_cases h1 : trendEngagement x < 2
    · rw [List.countP_cons_of_pos _ _ (by simp [h1]),
        List.countP_cons_of_neg _ _ (by simp [h1]),
        List.countP_cons_of_neg _ _ (by simp [h1]), List.length_cons]
      omega
    · by_cases h2 : trendEngagement x < 5
      · rw [List.countP_cons_of_neg _ _ (by simp [h1]),
          List.countP_cons_of_pos _ _ (by simp [h1, h2]),
          List.countP_cons_of_neg _ _ (by simp [h1, h2]), List.length_cons]
        omega
      · rw [List.countP_cons_of_neg _ _ (by simp [h1]),
          List.countP_cons_of_neg _ _ (by simp [h1, h2]),
          List.countP_cons_of_pos _ _ (by simp [h1, h2]), List.length_cons]
        omega

/-- C1: for every text input, `analyze_sentiment` lower-cases the text,
counts the positive and negative lexicon terms contained in it as
substrings (not whole-word matches), and returns `positive` when the
positive count exceeds the negative count, `negative` when the negative
count exceeds the positive count, and `neutral` on ties (including 0/0);
in particular the four example texts classify as positive, negative,
neutral and neutral. -/
theorem C1_sentiment_classifier :
    (∀ text : String,
      analyze_sentiment text =
        (if (negative_words.countP fun w => containsSub w.data (strLower text)) <
              (positive_words.countP fun w => containsSub w.data (strLower text))
         then "positive"
         else if (positive_words.countP fun w => containsSub w.data (strLower text)) <
              (negative_words.countP fun w => containsSub w.data (strLower text))
         then "negative"
         else "neutral"))
    ∧ analyze_sentiment ("This is great and awesome") = "positive"
    ∧ analyze_sentiment ("This is terrible and awful") = "negative"
    ∧ analyze_sentiment ("It is a video") = "neutral"
    ∧ analyze_sentiment ("") = "neutral" := by
  refine ⟨?_, by decide, by decide, by decide, by decide⟩
  intro text
  simp [analyze_sentiment, List.countP_eq_length_filter]

/-- C2 counterexample: two fetched videos published one hour apart give
upload frequency 0, not the number of videos divided by a day count
floored at 1 (which would be 2). -/
theorem C2_upload_frequency_counterexample :
    upload_frequency (some [3600, 0]) = 0 ∧
    upload_frequency (some [3600, 0]) ≠ (([3600, 0] : List Int).length : Rat) / 1 := by
  constructor
  · rfl
  · intro hc
    rw [show upload_frequency (some [3600, 0]) = 0 from rfl] at hc
    norm_num at hc

/-- C2 amended: for at least two fetched videos, the upload frequency is
the number of fetched videos divided by the whole-day difference between
the first and last fetched publish instants when that difference is
positive, and 0 otherwise; the `max(days_diff, 1)` floor never takes
effect, so a sample whose endpoints are less than one day apart yields 0
rather than the video count. -/
theorem C2_upload_frequency_amended :
    (∀ pubs : List Int, 1 < pubs.length →
      upload_frequency (some pubs) =
        (if 0 < Int.fdiv (pubs.headD 0 - pubs.getLastD 0) 86400
         then (pubs.length : Rat) / ((Int.fdiv (pubs.headD 0 - pubs.getLastD 0) 86400 : Int) : Rat)
         else 0))
    ∧ (∀ a b : Int, 0 ≤ a - b → a - b < 86400 → upload_frequency (some [a, b]) = 0) := by
  constructor
  · intro pubs h
    simp only [upload_frequency, if_pos h]
    by_cases hd : 0 < Int.fdiv (pubs.headD 0 - pubs.getLastD 0) 86400
    · rw [if_pos hd, if_pos hd]
      congr 2
      exact max_eq_left (by omega)
    · rw [if_neg hd, if_neg hd]
  · intro a b h0 h1
    have hz : Int.fdiv (a - b) 86400 = 0 := by
      rw [Int.fdiv_eq_ediv _ (by norm_num)]
      exact Int.ediv_eq_zero_of_lt h0 h1
    simp [upload_frequency, hz]

theorem C2_upload_frequency_amended_witness :
    1 < ([3600, 0] : List Int).length ∧
    upload_frequency (some [3600, 0]) =
      (if 0 < Int.fdiv (([3600, 0] : List Int).headD 0 - ([3600, 0] : List Int).getLastD 0) 86400
       then ((([3600, 0] : List Int).length : Nat) : Rat) /
         ((Int.fdiv (([3600, 0] : List Int).headD 0 - ([3600, 0] : List Int).getLastD 0) 86400 : Int) : Rat)
       else 0) ∧
    0 ≤ (86500 : Int) - 400 ∧ (86500 : Int) - 400 < 86400 ∧
    upload_frequency (some [86500, 400]) = 0 :=
  ⟨by decide, C2_upload_frequency_amended.1 [3600, 0] (by decide),
   by decide, by decide,
   C2_upload_frequency_amended.2 86500 400 (by decide) (by decide)⟩

/-- C3 counterexample: with the primary listing empty, the fallback search
the trending endpoint issues is ordered by `viewCount`, not by relevance. -/
theorem C3_trending_fallback_counterexample :
    (trendingSearchParams 86400 ("US")).order = "viewCount" ∧
    (trendingSearchParams 86400 ("US")).order ≠ "relevance" ∧
    (get_trending_analysis 86400 ("US") (some [])
        (some [⟨"vid1", 0⟩]) (some [⟨10, 1, 1, "PT1M"⟩])).1 =
      [TrendingRequest.mostPopular ("US") 50,
       TrendingRequest.searchRecent (trendingSearchParams 86400 ("US")),
       TrendingRequest.videoDetails [("vid1")]] := by
  refine ⟨rfl, by decide, rfl⟩

/-- C3 amended: when the primary most-popular-by-region listing (requested
with up to 50 items) yields no items, the fallback issues a search for
videos published in the last 24 hours ordered by view count (not by
relevance), with up to 50 results, and when that search yields items it
batch-fetches their statistics in one request over exactly their ids. -/
theorem C3_trending_fallback_amended :
    (∀ (now : Int) (region : String),
      (trendingSearchParams now region).order = "viewCount" ∧
      (trendingSearchParams now region).publishedAfter = now - 86400 ∧
      (trendingSearchParams now region).maxResults = 50)
    ∧ (∀ (now : Int) (region : String) (primary : Option (List RawVideo))
        (fd : Option (List FallbackDetail)),
        (primary = none ∨ primary = some []) →
        ((get_trending_analysis now region primary none fd).1 =
           [TrendingRequest.mostPopular (strUpper region) 50,
            TrendingRequest.searchRecent (trendingSearchParams now region)]
         ∧ ∀ (it : FallbackSearchItem) (its : List FallbackSearchItem),
             (get_trending_analysis now region primary (some (it :: its)) fd).1 =
               [TrendingRequest.mostPopular (strUpper region) 50,
                TrendingRequest.searchRecent (trendingSearchParams now region),
                TrendingRequest.videoDetails ((it :: its).map (fun i => i.vid))])) := by
  constructor
  · intro now region
    exact ⟨rfl, rfl, rfl⟩
  · intro now region primary fd hp
    rcases hp with rfl | rfl
    · constructor
      · rfl
      · intro it its
        cases fd <;> rfl
    · constructor
      · rfl
      · intro it its
        cases fd <;> rfl

theorem C3_trending_fallback_amended_witness :
    ((some ([] : List RawVideo)) = none ∨ (some ([] : List RawVideo)) = some []) ∧
    (get_trending_analysis 0 ("us") (some []) none none).1 =
      [TrendingRequest.mostPopular (strUpper ("us")) 50,
       TrendingRequest.searchRecent (trendingSearchParams 0 ("us"))] :=
  ⟨Or.inr rfl, (C3_trending_fallback_amended.2 0 ("us") (some []) none (Or.inr rfl)).1⟩

/-- C8: the engagement rate of a video is `(likes + comments) / views ×
100` when `views > 0` and 0 when `views = 0`; in particular views=0,
likes=5, comments=3 gives 0 and, being a total function on all inputs, no
division error can arise or propagate. -/
theorem C8_engagement_rate :
    (∀ views likes comments : Nat, 0 < views →
      engagement_rate views likes comments =
        ((likes : Rat) + (comments : Rat)) / (views : Rat) * 100)
    ∧ (∀ likes comments : Nat, engagement_rate 0 likes comments = 0)
    ∧ engagement_rate 0 5 3 = 0 := by
  refine ⟨?_, ?_, by decide⟩
  · intro v l c h
    simp [engagement_rate, h]
  · intro l c
    simp [engagement_rate]

theorem C8_engagement_rate_witness :
    0 < 2 ∧ engagement_rate 2 5 3 =
      (((5 : Nat) : Rat) + ((3 : Nat) : Rat)) / ((2 : Nat) : Rat) * 100 :=
  ⟨by decide, C8_engagement_rate.1 2 5 3 (by decide)⟩

/-- C9: the duration parser maps `PT5M30S` to 330 and any unparsable
string to 0 (it is a total function, so no error is raised or
propagated); in general a failed parse yields 0, a successful parse of
total seconds `n / d` yields `truncDiv n d`, and `truncDiv` is exactly
integer truncation toward zero (its magnitude is the floor of the
magnitude quotient). -/
theorem C9_parse_duration_total :
    parse_duration ("PT5M30S") = 330
    ∧ parse_duration ("not-a-duration") = 0
    ∧ (∀ s : String, parseIsoDuration s.data = none → parse_duration s = 0)
    ∧ (∀ (s : String) (n : Int) (d : Nat), parseIsoDuration s.data = some (n, d) →
        parse_duration s = truncDiv n d)
    ∧ (∀ (n : Int) (d : Nat), 0 < d →
        (truncDiv n d).natAbs * d ≤ n.natAbs ∧
        n.natAbs < ((truncDiv n d).natAbs + 1) * d) := by
  refine ⟨by decide, by decide, ?_, ?_, ?_⟩
  · intro s h
    simp [parse_duration, h]
  · intro s n d h
    simp [parse_duration, h]
  · intro n d hd
    have habs : (truncDiv n d).natAbs = n.natAbs / d := by
      by_cases h : 0 ≤ n
      · simp only [truncDiv, if_pos h, Int.natAbs_ofNat]
        congr 1
        omega
      · simp only [truncDiv, if_neg h, Int.natAbs_neg, Int.natAbs_ofNat]
    rw [habs]
    refine ⟨Nat.div_mul_le_self _ _, ?_⟩
    calc n.natAbs = d * (n.natAbs / d) + n.natAbs % d := (Nat.div_add_mod _ _).symm
      _ < d * (n.natAbs / d) + d := by
          have := Nat.mod_lt n.natAbs hd
          omega
      _ = (n.natAbs / d + 1) * d := by ring

theorem C9_parse_duration_total_witness :
    parseIsoDuration ("x-y").data = none ∧ parse_duration ("x-y") = 0 ∧
    parseIsoDuration ("PT5M30S").data = some (330, 1) ∧
    parse_duration ("PT5M30S") = truncDiv 330 1 ∧
    0 < 2 ∧ (truncDiv 7 2).natAbs * 2 ≤ (7 : Int).natAbs ∧
    (7 : Int).natAbs < ((truncDiv 7 2).natAbs + 1) * 2 :=
  ⟨by decide, C9_parse_duration_total.2.2.1 ("x-y") (by decide),
   by decide, C9_parse_duration_total.2.2.2.1 ("PT5M30S") 330 1 (by decide),
   by decide, (C9_parse_duration_total.2.2.2.2 7 2 (by decide)).1,
   (C9_parse_duration_total.2.2.2.2 7 2 (by decide)).2⟩

/-- A trending entry carrying only a view velocity, for the ranking
example. -/
def entryWithVelocity (q : Rat) : TrendingVideo :=
  { vid := "", viewCount := 0, likeCount := 0, commentCount := 0,
    viewVelocity := q, duration := 0 }

/-- C4: the trending endpoint's `trendingVideos` list is the fetched
entries sorted by view velocity in descending order (pairwise), the sort
is a permutation that keeps entries of equal velocity in their upstream
order (stable), and the output is the first 30 entries of that ranked
list; three entries with velocities [10, 50, 30] rank as [50, 30, 10]. -/
theorem C4_view_velocity_ranking :
    (∀ l : List TrendingVideo,
      (rankVideos l).Pairwise (fun a b => b.viewVelocity ≤ a.viewVelocity))
    ∧ (∀ l : List TrendingVideo, (rankVideos l).Perm l)
    ∧ (∀ (l : List TrendingVideo) (q : Rat),
        (rankVideos l).filter (fun v => decide (v.viewVelocity = q)) =
          l.filter (fun v => decide (v.viewVelocity = q)))
    ∧ (∀ (now : Int) (region : String) (it : RawVideo) (its : List RawVideo)
        (fs : Option (List FallbackSearchItem)) (fd : Option (List FallbackDetail)),
        (get_trending_analysis now region (some (it :: its)) fs fd).2 =
          Except.ok (buildTrendingResult (strUpper region)
            (rankVideos ((it :: its).map (mkEntry now)))))
    ∧ (∀ (region : String) (ranked : List TrendingVideo),
        (buildTrendingResult region ranked).trendingVideos = ranked.take 30)
    ∧ (rankVideos [entryWithVelocity 10, entryWithVelocity 50, entryWithVelocity 30]).map
        (fun v => v.viewVelocity) = [50, 30, 10] := by
  refine ⟨?_, ?_, ?_, ?_, ?_, by decide⟩
  · intro l
    exact sortDescBy_pairwise _ l
  · intro l
    exact sortDescBy_perm _ l
  · intro l q
    exact sortDescBy_filter _ l q
  · intro now region it its fs fd
    rfl
  · intro region ranked
    rfl

/-- The prefix test on `UC` forces a first character distinct from `@`. -/
theorem uc_not_at (s : String) (h : strStartsWith s ("UC") = true) :
    strStartsWith s ("@") = false := by
  rcases s with ⟨data⟩
  cases data with
  | nil => simp [strStartsWith, List.isPrefixOf] at h
  | cons c cs =>
    have hUC : ("UC" : String).data = ['U', 'C'] := rfl
    have hAt : ("@" : String).data = ['@'] := rfl
    simp only [strStartsWith, hUC, hAt] at h ⊢
    simp [List.isPrefixOf] at h ⊢
    rcases h with ⟨h1, -⟩
    subst h1
    decide

/-- C5: an input of exactly 24 characters starting with `UC` passes
through unchanged with no search issued; the single name search always
has `maxResults` 1 and channel type; an `@`-input issues exactly that one
search on the input with the `@` stripped, and any returned items resolve
to the first hit's channel id; any other input not starting with `UC` and
of length ≠ 24 issues the same single name search on the whole input. -/
theorem C5_channel_resolver :
    (∀ (r : Option (List SearchHit)) (s : String),
      strStartsWith s ("UC") = true → s.length = 24 →
      resolveChannelInput s r = ([], some s))
    ∧ (∀ q : String, (channelSearchRequest q).maxResults = 1 ∧
        (channelSearchRequest q).type = "channel" ∧ (channelSearchRequest q).q = q)
    ∧ (∀ (r : Option (List SearchHit)) (cs : List Char),
        resolveChannelInput (String.mk ('@' :: cs)) r =
          ([channelSearchRequest (String.mk cs)],
           (get_channel_id_from_name (String.mk cs) r).2))
    ∧ (∀ (h : SearchHit) (t : List SearchHit) (q : String),
        (get_channel_id_from_name q (some (h :: t))).2 = some h.channelId)
    ∧ (∀ (r : Option (List SearchHit)) (s : String),
        strStartsWith s ("@") = false → strStartsWith s ("UC") = false → s.length ≠ 24 →
        resolveChannelInput s r = ([channelSearchRequest s],
          (get_channel_id_from_name s r).2)) := by
  refine ⟨?_, ?_, ?_, ?_, ?_⟩
  · intro r s h1 h2
    simp [resolveChannelInput, uc_not_at s h1, h1, h2]
  · intro q
    exact ⟨rfl, rfl, rfl⟩
  · intro r cs
    have hat : strStartsWith (String.mk ('@' :: cs)) ("@") = true := by
      simp [strStartsWith, List.isPrefixOf]
    simp [resolveChannelInput, hat, get_channel_id_from_name]
  · intro h t q
    rfl
  · intro r s h0 h1 h2
    simp [resolveChannelInput, h0, h1, h2, get_channel_id_from_name]

theorem C5_channel_resolver_witness :
    strStartsWith ("UCabcdefghijklmnopqrstuv") ("UC") = true ∧
    ("UCabcdefghijklmnopqrstuv" : String).length = 24 ∧
    resolveChannelInput ("UCabcdefghijklmnopqrstuv") none =
      ([], some ("UCabcdefghijklmnopqrstuv")) ∧
    resolveChannelInput (String.mk ('@' :: ("handle").data)) none =
      ([channelSearchRequest (String.mk ("handle").data)],
       (get_channel_id_from_name (String.mk ("handle").data) none).2) ∧
    strStartsWith ("somechannel") ("@") = false ∧
    strStartsWith ("somechannel") ("UC") = false ∧
    ("somechannel" : String).length ≠ 24 ∧
    resolveChannelInput ("somechannel") none =
      ([channelSearchRequest ("somechannel")],
       (get_channel_id_from_name ("somechannel") none).2) :=
  ⟨by decide, by decide,
   C5_channel_resolver.1 none ("UCabcdefghijklmnopqrstuv") (by decide) (by decide),
   C5_channel_resolver.2.2.1 none (("handle").data),
   by decide, by decide, by decide,
   C5_channel_resolver.2.2.2.2 none ("somechannel") (by decide) (by decide) (by decide)⟩

/-- C6: whenever channel resolution performs a search (the request trace
is nonempty) and that search yields no results (a failed call or an empty
item list), the channel request is answered with a 404 whose body carries
the channel-not-found error message — never a success outcome. -/
theorem C6_channel_not_found :
    ∀ (input : String) (r : Option (List SearchHit)),
      (resolveChannelInput input r).1 ≠ [] →
      (r = none ∨ r = some []) →
      (channelResolutionOutcome input r).2 =
        Except.error (404, channelNotFoundMsg input) := by
  intro input r hreq hr
  have hcid : (resolveChannelInput input r).2 = none := by
    by_cases h1 : strStartsWith input ("@") = true
    · simp only [resolveChannelInput, h1, if_true, get_channel_id_from_name]
      rcases hr with rfl | rfl <;> rfl
    · by_cases h2 : (!strStartsWith input ("UC") && input.length != 24) = true
      · simp only [resolveChannelInput, h1, h2, if_true, Bool.false_eq_true, if_false,
          get_channel_id_from_name]
        rcases hr with rfl | rfl <;> rfl
      · exfalso
        apply hreq
        simp [resolveChannelInput, h1, h2]
  simp [channelResolutionOutcome, hcid]

theorem C6_channel_not_found_witness :
    (resolveChannelInput ("somechannel") none).1 ≠ [] ∧
    (channelResolutionOutcome ("somechannel") none).2 =
      Except.error (404, channelNotFoundMsg ("somechannel")) :=
  ⟨by decide, C6_channel_not_found ("somechannel") none (by decide) (Or.inl rfl)⟩

/-- C7: if the primary trending tier yields no items and the fallback
search also yields no items, the response is a 404 whose message mentions
quotas and restrictions (never a success with an empty list); if the
fallback search yields items but the statistics batch-fetch fails, the
response is a 500. -/
theorem C7_trending_error_paths :
    ∀ (now : Int) (region : String) (primary : Option (List RawVideo))
      (fs : Option (List FallbackSearchItem)) (fd : Option (List FallbackDetail)),
      (primary = none ∨ primary = some []) →
      (((fs = none ∨ fs = some []) →
        (get_trending_analysis now region primary fs fd).2 =
          Except.error (404, trendingUnavailableMsg) ∧
        containsSub ("quota").data trendingUnavailableMsg.data = true ∧
        containsSub ("restriction").data trendingUnavailableMsg.data = true)
      ∧ (∀ (it : FallbackSearchItem) (its : List FallbackSearchItem),
          fs = some (it :: its) → fd = none →
          (get_trending_analysis now region primary fs fd).2 =
            Except.error (500, videoDetailsFailedMsg))) := by
  intro now region primary fs fd hp
  constructor
  · intro hfs
    refine ⟨?_, by decide, by decide⟩
    rcases hp with rfl | rfl <;> rcases hfs with rfl | rfl <;> rfl
  · intro it its hfs hfd
    subst hfs
    subst hfd
    rcases hp with rfl | rfl <;> rfl

theorem C7_trending_error_paths_witness :
    ((none : Option (List RawVideo)) = none ∨ (none : Option (List RawVideo)) = some []) ∧
    (get_trending_analysis 0 ("US") none none none).2 =
      Except.error (404, trendingUnavailableMsg) ∧
    (get_trending_analysis 0 ("US") none (some [⟨"v", 0⟩]) none).2 =
      Except.error (500, videoDetailsFailedMsg) :=
  ⟨Or.inl rfl,
   ((C7_trending_error_paths 0 ("US") none none none (Or.inl rfl)).1 (Or.inl rfl)).1,
   (C7_trending_error_paths 0 ("US") none (some [⟨"v", 0⟩]) none (Or.inl rfl)).2
     ⟨"v", 0⟩ [] rfl rfl⟩

theorem rankVideos_length (l : List TrendingVideo) :
    (rankVideos l).length = l.length :=
  (sortDescBy_perm _ l).length_eq

/-- A concrete primary-listing item used to witness C10. -/
def rawSample : RawVideo :=
  { vid := "v", viewCount := 1, likeCount := 0, commentCount := 0,
    published := 0, duration := "PT1M" }

/-- C10: every summary field (`totalVideos`, `totalViews`, `averageViews`,
`topPerformer`, `avgEngagement`) and the category and engagement
aggregations of the trending body are computed over the whole
velocity-ranked list, while `trendingVideos` is capped at 30; hence with
more than 30 fetched videos `totalVideos` strictly exceeds the length of
`trendingVideos`. -/
theorem C10_summary_over_full_list :
    (∀ (region : String) (ranked : List TrendingVideo),
      (buildTrendingResult region ranked).totalVideos = ranked.length
      ∧ (buildTrendingResult region ranked).totalViews =
          (ranked.map (fun v => v.viewCount)).sum
      ∧ (buildTrendingResult region ranked).averageViews =
          (if ranked.isEmpty then 0
           else (ranked.map (fun v => v.viewCount)).sum / ranked.length)
      ∧ (buildTrendingResult region ranked).topPerformer = ranked.head?
      ∧ (buildTrendingResult region ranked).avgEngagement =
          (if ranked.isEmpty then 0
           else (ranked.map trendEngagement).sum / (ranked.length : Rat))
      ∧ (buildTrendingResult region ranked).trendingVideos.length = min 30 ranked.length
      ∧ ((buildTrendingResult region ranked).engagementDistribution.map Prod.snd).sum =
          ranked.length
      ∧ ((buildTrendingResult region ranked).categoryBreakdown.map (fun e => e.count)).sum =
          ranked.length)
    ∧ (∀ (now : Int) (region : String) (items : List RawVideo)
        (fs : Option (List FallbackSearchItem)) (fd : Option (List FallbackDetail)),
        30 < items.length →
        ∃ body, (get_trending_analysis now region (some items) fs fd).2 = Except.ok body
          ∧ body.totalVideos = items.length
          ∧ body.trendingVideos.length = 30
          ∧ body.trendingVideos.length < body.totalVideos) := by
  constructor
  · intro region ranked
    refine ⟨rfl, rfl, rfl, rfl, rfl, ?_, engagementDistribution_count_sum ranked,
      categoryBreakdown_count_sum ranked⟩
    simp [buildTrendingResult]
  · intro now region items fs fd hlen
    cases items with
    | nil => simp at hlen
    | cons it its =>
      refine ⟨buildTrendingResult (strUpper region)
        (rankVideos ((it :: its).map (mkEntry now))), rfl, ?_, ?_, ?_⟩
      · show (rankVideos ((it :: its).map (mkEntry now))).length = (it :: its).length
        rw [rankVideos_length, List.length_map]
      · show ((rankVideos ((it :: its).map (mkEntry now))).take 30).length = 30
        rw [List.length_take, rankVideos_length, List.length_map]
        omega
      · show ((rankVideos ((it :: its).map (mkEntry now))).take 30).length <
          (rankVideos ((it :: its).map (mkEntry now))).length
        rw [List.length_take, rankVideos_length, List.length_map]
        omega

theorem C10_summary_over_full_list_witness :
    30 < (List.replicate 31 rawSample).length ∧
    ∃ body, (get_trending_analysis 0 ("US")
        (some (List.replicate 31 rawSample)) none none).2 = Except.ok body
      ∧ body.totalVideos = (List.replicate 31 rawSample).length
      ∧ body.trendingVideos.length = 30
      ∧ body.trendingVideos.length < body.totalVideos :=
  ⟨by simp, C10_summary_over_full_list.2 0 ("US") (List.replicate 31 rawSample)
    none none (by simp)⟩
